import Mathlib

/-!
Verification of the CRD migration controller of the registration-operator
repository (`pkg/operators/clustermanager/controllers/migrationcontroller/
migration_controller.go`), shallowly embedded in Lean 4.

The controller's store interactions (typed clients for
StorageVersionMigration objects and for CustomResourceDefinitions) are
modelled as a pure in-memory object store with optional fault injection,
mirroring the fake clientsets used by `migration_controller_test.go`.
Events and requeue calls are recorded as explicit traces.
-/

namespace MigrationController

/-- Object metadata, restricted to the fields the controller reads or
writes: name, namespace, labels and annotations.  The
StorageVersionMigration manifests of this repository carry no owner
references, so the owner-reference part of the library metadata merge is
omitted. -/
structure ObjectMeta where
  name : String
  ns : String
  labels : List (String × String)
  annotations : List (String × String)
deriving DecidableEq

/-- Spec of a StorageVersionMigration: the group/version/resource triple of
the resource to migrate plus the continue token
(`migrationv1alpha1.StorageVersionMigrationSpec`). -/
structure MigrationSpec where
  group : String
  version : String
  resource : String
  continueToken : String
deriving DecidableEq

/-- A StorageVersionMigration object as the controller handles it: the
controller only ever reads or writes the object metadata and the spec
(status is never touched by `applyStorageVersionMigration`). -/
structure StorageVersionMigration where
  meta : ObjectMeta
  spec : MigrationSpec
deriving DecidableEq

/-- Store errors the controller distinguishes: `errors.IsNotFound` versus
everything else (carried as a message). -/
inductive StoreErr
  | notFound
  | other (msg : String)
deriving DecidableEq

/-- The error message surfaced to callers for a store error. -/
def StoreErr.message : StoreErr → String
  | .notFound => "not found"
  | .other msg => msg

/-- In-memory object store for StorageVersionMigration objects with
fault injection, mirroring the fake clientset (plus optional reactors)
used by the repository's tests. -/
structure FakeClient where
  objects : List StorageVersionMigration
  getFault : Option StoreErr
  createFault : Option StoreErr
  updateFault : Option StoreErr
  deleteFault : Option StoreErr
deriving DecidableEq

/-- A fault-free client holding the given objects. -/
def FakeClient.ofObjects (objs : List StorageVersionMigration) : FakeClient :=
  ⟨objs, none, none, none, none⟩

/-- `StorageVersionMigrations().Get(name)`: injected fault, else the stored
object of that name, else NotFound. -/
def FakeClient.getObj (c : FakeClient) (name : String) :
    Except StoreErr StorageVersionMigration :=
  match c.getFault with
  | some e => .error e
  | none =>
    match c.objects.find? (fun o => o.meta.name = name) with
    | some o => .ok o
    | none => .error .notFound

/-- `StorageVersionMigrations().Create(obj)`: injected fault, else an
already-exists error when an object of the same name is stored, else the
object is appended to the store. -/
def FakeClient.createObj (c : FakeClient) (obj : StorageVersionMigration) :
    Except StoreErr StorageVersionMigration × FakeClient :=
  match c.createFault with
  | some e => (.error e, c)
  | none =>
    if c.objects.any (fun o => o.meta.name = obj.meta.name) then
      (.error (.other "already exists"), c)
    else
      (.ok obj, { c with objects := c.objects ++ [obj] })

/-- `StorageVersionMigrations().Update(obj)`: injected fault, else the
stored object of the same name is replaced, else NotFound. -/
def FakeClient.updateObj (c : FakeClient) (obj : StorageVersionMigration) :
    Except StoreErr StorageVersionMigration × FakeClient :=
  match c.updateFault with
  | some e => (.error e, c)
  | none =>
    if c.objects.any (fun o => o.meta.name = obj.meta.name) then
      (.ok obj,
       { c with objects :=
          c.objects.map (fun o => if o.meta.name = obj.meta.name then obj else o) })
    else
      (.error .notFound, c)

/-- `StorageVersionMigrations().Delete(name)`: injected fault, else the
stored object of that name is removed, else NotFound. -/
def FakeClient.deleteObj (c : FakeClient) (name : String) :
    Except StoreErr Unit × FakeClient :=
  match c.deleteFault with
  | some e => (.error e, c)
  | none =>
    if c.objects.any (fun o => o.meta.name = name) then
      (.ok (),
       { c with objects := c.objects.filter (fun o => o.meta.name ≠ name) })
    else
      (.error .notFound, c)

/-- One store call made by the controller, as recorded by the fake client
action trace in the tests (`get`, `create`, `update`, `delete` on
StorageVersionMigrations; `getCRD` for the capability probe on
CustomResourceDefinitions). -/
inductive Action
  | getCRD (name : String)
  | get (name : String)
  | create (obj : StorageVersionMigration)
  | update (obj : StorageVersionMigration)
  | delete (name : String)
deriving DecidableEq

/-- Whether an action is a create call. -/
def Action.isCreate : Action → Bool
  | .create _ => true
  | _ => false

/-- Whether an action is an update call. -/
def Action.isUpdate : Action → Bool
  | .update _ => true
  | _ => false

/-- Whether an action is a mutating store call (create, update or delete). -/
def Action.isMutation : Action → Bool
  | .create _ => true
  | .update _ => true
  | .delete _ => true
  | _ => false

/-- An operational signal emitted through the event recorder.  The subject
is the formatted object identity; failure events also carry the store
error message that was interpolated into the recorded warning. -/
inductive Event
  | svmCreated (subject : String)
  | svmCreateFailed (subject : String) (msg : String)
  | svmUpdated (subject : String)
  | svmUpdateFailed (subject : String) (msg : String)
deriving DecidableEq

/-- The machine reason token of an event, exactly as the source passes it
to `recorder.Eventf`/`recorder.Warningf`. -/
def Event.reason : Event → String
  | .svmCreated _ => "StorageVersionMigrationCreated"
  | .svmCreateFailed _ _ => "StorageVersionMigrationCreateFailed"
  | .svmUpdated _ => "StorageVersionMigrationUpdated"
  | .svmUpdateFailed _ _ => "StorageVersionMigrationUpdateFailed"

/-- Whether the event is the success signal for a create. -/
def Event.isCreated : Event → Bool
  | .svmCreated _ => true
  | _ => false

/-- Whether the event is the failure signal for a create. -/
def Event.isCreateFailed : Event → Bool
  | .svmCreateFailed _ _ => true
  | _ => false

/-- Whether the event is the success signal for an update. -/
def Event.isUpdated : Event → Bool
  | .svmUpdated _ => true
  | _ => false

/-- Whether the event is the failure signal for an update. -/
def Event.isUpdateFailed : Event → Bool
  | .svmUpdateFailed _ _ => true
  | _ => false

/-- The store error message carried by the first failure event of a trace,
if any. -/
def eventErrMsg : List Event → Option String
  | [] => none
  | .svmCreateFailed _ m :: _ => some m
  | .svmUpdateFailed _ m :: _ => some m
  | _ :: rest => eventErrMsg rest

/-- `resourcemerge.SetStringIfSet`: overwrite `existing` with `required`
when `required` is non-empty and differs, flagging the modification. -/
def setStringIfSet (modified : Bool) (existing required : String) :
    Bool × String :=
  if required ≠ "" ∧ required ≠ existing then (true, required)
  else (modified, existing)

/-- Replace the value stored under `k`, or append the pair when absent. -/
def mapSet (m : List (String × String)) (k v : String) :
    List (String × String) :=
  if m.any (fun p => p.1 = k) then
    m.map (fun p => if p.1 = k then (k, v) else p)
  else m ++ [(k, v)]

/-- Remove every pair stored under `k`. -/
def mapRemove (m : List (String × String)) (k : String) :
    List (String × String) :=
  m.filter (fun p => p.1 ≠ k)

/-- One step of `resourcemerge.MergeMap`: a required key ending in a dash
requests removal of the trimmed key; otherwise the required value is
written when absent or different. -/
def mergeMapStep (st : Bool × List (String × String)) (kv : String × String) :
    Bool × List (String × String) :=
  if kv.1.endsWith "-" then
    let actualKey := kv.1.dropRightWhile (fun ch => ch = '-')
    if st.2.any (fun p => p.1 = actualKey) then (true, mapRemove st.2 actualKey)
    else st
  else
    match st.2.lookup kv.1 with
    | some v => if v = kv.2 then st else (true, mapSet st.2 kv.1 kv.2)
    | none => (true, mapSet st.2 kv.1 kv.2)

/-- `resourcemerge.MergeMap`: fold every required pair into the existing
map, flagging whether anything changed. -/
def mergeMap (modified : Bool) (existing required : List (String × String)) :
    Bool × List (String × String) :=
  required.foldl mergeMapStep (modified, existing)

/-- `resourcemerge.EnsureObjectMeta`: merge the required namespace, name,
labels and annotations into the existing metadata (owner references are
omitted, see `ObjectMeta`).  Store-added labels and annotations absent
from `required` are left in place. -/
def ensureObjectMeta (existing required : ObjectMeta) : Bool × ObjectMeta :=
  let (m1, ns1) := setStringIfSet false existing.ns required.ns
  let (m2, name1) := setStringIfSet m1 existing.name required.name
  let (m3, labels1) := mergeMap m2 existing.labels required.labels
  let (m4, annotations1) := mergeMap m3 existing.annotations required.annotations
  (m4, ⟨name1, ns1, labels1, annotations1⟩)

/-- Outcome of rendering and decoding one manifest file, covering the three
failure exits of the source (`manifests(file)` error, `genericCodec.Decode`
error, failed type assertion to `*StorageVersionMigration`) and success. -/
inductive RenderResult
  | readErr (msg : String)
  | decodeErr (msg : String)
  | wrongType
  | ok (m : StorageVersionMigration)
deriving DecidableEq

/-- Result of `applyStorageVersionMigration`: the returned object, the
`changed` boolean, the returned error, the client state after the call and
the traces of store calls and emitted events. -/
structure ApplyResult where
  result : Option StorageVersionMigration
  changed : Bool
  err : Option String
  client : FakeClient
  actions : List Action
  events : List Event
deriving DecidableEq

/-- `applyStorageVersionMigration` translated from the source: render and
decode the file, get the existing object by name; create it when absent;
otherwise merge metadata with `ensureObjectMeta` into a deep copy, flag a
modification when the copied spec differs from the required spec while
assigning the required spec to `existing` (the original, not the copy, as
the source does), and update with the copy when modified. -/
def applyStorageVersionMigration (render : String → RenderResult)
    (client : FakeClient) (file : String) : ApplyResult :=
  match render file with
  | .readErr e =>
    ⟨none, false, some ("missing " ++ file ++ ": " ++ e), client, [], []⟩
  | .decodeErr e =>
    ⟨none, false, some ("cannot decode " ++ file ++ ": " ++ e), client, [], []⟩
  | .wrongType =>
    ⟨none, false, some ("invalid StorageVersionMigration in file " ++ file),
     client, [], []⟩
  | .ok required =>
    match client.getObj required.meta.name with
    | .error .notFound =>
      match client.createObj required with
      | (.error e, c2) =>
        ⟨none, true, some e.message, c2,
         [.get required.meta.name, .create required],
         [.svmCreateFailed required.meta.name e.message]⟩
      | (.ok actual, c2) =>
        ⟨some actual, true, none, c2,
         [.get required.meta.name, .create required],
         [.svmCreated actual.meta.name]⟩
    | .error e =>
      ⟨none, false, some e.message, client, [.get required.meta.name], []⟩
    | .ok existing =>
      let (metaModified, mergedMeta) :=
        ensureObjectMeta existing.meta required.meta
      let existingCopy : StorageVersionMigration :=
        ⟨mergedMeta, existing.spec⟩
      let modified := metaModified || decide (existingCopy.spec ≠ required.spec)
      if modified then
        match client.updateObj existingCopy with
        | (.error e, c2) =>
          ⟨none, true, some e.message, c2,
           [.get required.meta.name, .update existingCopy],
           [.svmUpdateFailed existingCopy.meta.name e.message]⟩
        | (.ok actual, c2) =>
          ⟨some actual, true, none, c2,
           [.get required.meta.name, .update existingCopy],
           [.svmUpdated actual.meta.name]⟩
      else
        ⟨some existing, false, none, client, [.get required.meta.name], []⟩

/-- Result of a removal: the returned error, the client state after the
call and the trace of store calls. -/
structure RemoveResult where
  err : Option String
  client : FakeClient
  actions : List Action
deriving DecidableEq

/-- `removeStorageVersionMigration` translated from the source: render and
decode the file, then delete by name; a NotFound delete error is success,
any other delete error is returned. -/
def removeStorageVersionMigration (render : String → RenderResult)
    (client : FakeClient) (file : String) : RemoveResult :=
  match render file with
  | .readErr e => ⟨some e, client, []⟩
  | .decodeErr e => ⟨some e, client, []⟩
  | .wrongType =>
    ⟨some ("invalid StorageVersionMigration in file " ++ file), client, []⟩
  | .ok required =>
    match client.deleteObj required.meta.name with
    | (.error .notFound, c2) => ⟨none, c2, [.delete required.meta.name]⟩
    | (.error e, c2) => ⟨some e.message, c2, [.delete required.meta.name]⟩
    | (.ok _, c2) => ⟨none, c2, [.delete required.meta.name]⟩

/-- The first migration request manifest file. -/
def file0 : String :=
  "cluster-manager/cluster-manager-managedclustersets-migration.yaml"

/-- The second migration request manifest file. -/
def file1 : String :=
  "cluster-manager/cluster-manager-managedclustersetbindings-migration.yaml"

/-- The migration request manifest files, in declaration order
(`migrationRequestFiles`). -/
def migrationRequestFiles : List String := [file0, file1]

/-- The name of the prerequisite CRD (`migrationRequestCRDName`). -/
def migrationRequestCRDName : String :=
  "storageversionmigrations.migration.k8s.io"

/-- The condition type the sync waits on (`clusterManagerApplied`). -/
def clusterManagerApplied : String := "Applied"

/-- The loop body of `removeStorageVersionMigrations`: remove each file in
order, returning the first error immediately. -/
def removeLoop (render : String → RenderResult) :
    List String → FakeClient → List Action → RemoveResult
  | [], c, acts => ⟨none, c, acts⟩
  | f :: rest, c, acts =>
    let r := removeStorageVersionMigration render c f
    match r.err with
    | some e => ⟨some e, r.client, acts ++ r.actions⟩
    | none => removeLoop render rest r.client (acts ++ r.actions)

/-- `removeStorageVersionMigrations` translated from the source: iterate
over `migrationRequestFiles`, returning on the first per-file error. -/
def removeStorageVersionMigrations (render : String → RenderResult)
    (client : FakeClient) : RemoveResult :=
  removeLoop render migrationRequestFiles client []

/-- Result of the plural apply: the list of collected per-file errors, the
client state and the traces. -/
structure MultiApplyResult where
  errs : List String
  client : FakeClient
  actions : List Action
  events : List Event
deriving DecidableEq

/-- The loop body of `applyStorageVersionMigrations`: apply each file,
collecting errors and continuing with the remaining files. -/
def applyLoop (render : String → RenderResult) :
    List String → FakeClient → MultiApplyResult
  | [], c => ⟨[], c, [], []⟩
  | f :: rest, c =>
    let r := applyStorageVersionMigration render c f
    let tail := applyLoop render rest r.client
    ⟨(match r.err with | some e => [e] | none => []) ++ tail.errs,
     tail.client, r.actions ++ tail.actions, r.events ++ tail.events⟩

/-- `operatorhelpers.NewMultiLineAggregate`: nil for an empty error list,
otherwise one aggregate error joining all messages. -/
def multiLineAggregate (errs : List String) : Option String :=
  match errs with
  | [] => none
  | _ => some (String.intercalate "\n" errs)

/-- `applyStorageVersionMigrations` translated from the source: apply every
file of `migrationRequestFiles`, collect all errors and return their
aggregate. -/
def applyStorageVersionMigrations (render : String → RenderResult)
    (client : FakeClient) : Option String × MultiApplyResult :=
  let r := applyLoop render migrationRequestFiles client
  (multiLineAggregate r.errs, r)

/-- A status condition, restricted to the fields
`meta.IsStatusConditionTrue` reads. -/
structure Condition where
  condType : String
  status : String
deriving DecidableEq

/-- `meta.IsStatusConditionTrue`: the condition of the given type exists
and has status True. -/
def isStatusConditionTrue (conds : List Condition) (t : String) : Bool :=
  match conds.find? (fun c => c.condType = t) with
  | some c => c.status = "True"
  | none => false

/-- The owning ClusterManager, restricted to the fields the sync reads:
name, deletion timestamp and status conditions. -/
structure ClusterManager where
  name : String
  deletionTimestamp : Option Nat
  conditions : List Condition
deriving DecidableEq

/-- `supportStorageVersionMigration` translated from the source: probe the
StorageVersionMigration CRD; NotFound means unsupported without error, any
other error is returned, success means supported.  `crdGet` is the outcome
of the CRD get call (`none` = found). -/
def supportStorageVersionMigration (crdGet : Option StoreErr) :
    Except StoreErr Bool :=
  match crdGet with
  | some .notFound => .ok false
  | some e => .error e
  | none => .ok true

/-- Result of one sync invocation: the returned error, the migration client
state, the traces of store calls and events, and the `AddAfter` requeue
calls as (key, delay in seconds) pairs. -/
structure SyncResult where
  err : Option String
  client : FakeClient
  actions : List Action
  events : List Event
  requeues : List (String × Nat)
deriving DecidableEq

/-- `sync` translated from the source: look up the ClusterManager by queue
key (NotFound means done), check CRD support (unsupported means done),
remove all subordinates when the deletion timestamp is set, requeue after
5 seconds when the Applied condition is not true, otherwise apply all
subordinates.  `listerResult` is the lister lookup outcome and `crdGet`
the CRD probe outcome. -/
def sync (listerResult : Except StoreErr ClusterManager)
    (crdGet : Option StoreErr) (render : String → RenderResult)
    (client : FakeClient) (queueKey : String) : SyncResult :=
  match listerResult with
  | .error .notFound => ⟨none, client, [], [], []⟩
  | .error e => ⟨some e.message, client, [], [], []⟩
  | .ok cm =>
    match supportStorageVersionMigration crdGet with
    | .error e =>
      ⟨some e.message, client, [.getCRD migrationRequestCRDName], [], []⟩
    | .ok false =>
      ⟨none, client, [.getCRD migrationRequestCRDName], [], []⟩
    | .ok true =>
      if cm.deletionTimestamp ≠ none then
        let r := removeStorageVersionMigrations render client
        ⟨r.err, r.client, .getCRD migrationRequestCRDName :: r.actions, [], []⟩
      else if !isStatusConditionTrue cm.conditions clusterManagerApplied then
        ⟨none, client, [.getCRD migrationRequestCRDName], [], [(queueKey, 5)]⟩
      else
        let (err, r) := applyStorageVersionMigrations render client
        ⟨err, r.client, .getCRD migrationRequestCRDName :: r.actions,
         r.events, []⟩

/-- Modelled from the spec: the two migration request manifest templates
under manifests/cluster-manager are not under src/; the
StorageVersionMigration object the first file renders is reconstructed
from the renderer contract (one typed object per file) with the name
asserted by `migration_controller_test.go`. -/
def svmSets : StorageVersionMigration :=
  ⟨⟨"managedclustersets.cluster.open-cluster-management.io", "", [], []⟩,
   ⟨"cluster.open-cluster-management.io", "v1beta1", "managedclustersets", ""⟩⟩

/-- Modelled from the spec: the StorageVersionMigration object rendered by
the second migration request manifest, with the name asserted by
`migration_controller_test.go`. -/
def svmSetBindings : StorageVersionMigration :=
  ⟨⟨"managedclustersetbindings.cluster.open-cluster-management.io", "", [], []⟩,
   ⟨"cluster.open-cluster-management.io", "v1beta1",
    "managedclustersetbindings", ""⟩⟩

/-- Modelled from the spec: the asset closure passed by the plural
apply/remove functions, rendering each migration request file to its
StorageVersionMigration and failing with a read error otherwise. -/
def defaultRender (file : String) : RenderResult :=
  if file = "cluster-manager/cluster-manager-managedclustersets-migration.yaml"
  then .ok svmSets
  else if file =
    "cluster-manager/cluster-manager-managedclustersetbindings-migration.yaml"
  then .ok svmSetBindings
  else .readErr "file does not exist"

/-- The store's drifted copy of `svmSets`: a label added by the store and a
manually changed spec (different continue token). -/
def driftedSets : StorageVersionMigration :=
  ⟨⟨"managedclustersets.cluster.open-cluster-management.io", "",
    [("store-added", "yes")], []⟩,
   ⟨"cluster.open-cluster-management.io", "v1beta1", "managedclustersets",
    "drifted"⟩⟩

end MigrationController

namespace MigrationController

/-- A label or annotation list behaves like the Go map it embeds: every
entry's key looks up to that entry's value (no shadowed duplicate keys)
and no key is a dash-suffixed removal directive. -/
def selfMergeClean (l : List (String × String)) : Bool :=
  l.all (fun kv => decide (l.lookup kv.1 = some kv.2) && !kv.1.endsWith "-")

theorem mergeMapStep_noop {b : Bool} {ex : List (String × String)}
    {kv : String × String} (hlook : ex.lookup kv.1 = some kv.2)
    (hdash : kv.1.endsWith "-" = false) :
    mergeMapStep (b, ex) kv = (b, ex) := by
  simp [mergeMapStep, hdash, hlook]

theorem foldl_mergeMapStep_noop (b : Bool) (ex : List (String × String)) :
    ∀ req : List (String × String),
      (∀ kv ∈ req, ex.lookup kv.1 = some kv.2 ∧ kv.1.endsWith "-" = false) →
      req.foldl mergeMapStep (b, ex) = (b, ex)
  | [], _ => rfl
  | kv :: rest, h => by
    have h1 := h kv (List.mem_cons_self kv rest)
    rw [List.foldl_cons, mergeMapStep_noop h1.1 h1.2]
    exact foldl_mergeMapStep_noop b ex rest
      (fun p hp => h p (List.mem_cons_of_mem kv hp))

theorem mergeMap_self (b : Bool) (l : List (String × String))
    (h : selfMergeClean l = true) : mergeMap b l l = (b, l) := by
  apply foldl_mergeMapStep_noop
  intro kv hkv
  have hkv2 := List.all_eq_true.mp h kv hkv
  simpa using hkv2

theorem setStringIfSet_self (b : Bool) (s : String) :
    setStringIfSet b s s = (b, s) := by
  simp [setStringIfSet]

theorem ensureObjectMeta_self (m : ObjectMeta)
    (hl : selfMergeClean m.labels = true)
    (ha : selfMergeClean m.annotations = true) :
    ensureObjectMeta m m = (false, m) := by
  simp [ensureObjectMeta, setStringIfSet_self, mergeMap_self false m.labels hl,
    mergeMap_self false m.annotations ha]

/-- C1: refuted on the code.  With the store holding a drifted copy of the
desired StorageVersionMigration (spec manually changed, a store-added
label present), `applyStorageVersionMigration` does issue exactly one
update, but the update payload keeps the drifted observed spec: the
desired spec is assigned to the original `existing` object while the
payload `existingCopy` is sent, so the desired spec is not restored and
the store still holds the drifted spec afterwards. -/
theorem applyStorageVersionMigration_drift_sends_observed_spec :
    applyStorageVersionMigration defaultRender
        (FakeClient.ofObjects [driftedSets])
        "cluster-manager/cluster-manager-managedclustersets-migration.yaml"
      = ⟨some driftedSets, true, none, FakeClient.ofObjects [driftedSets],
         [.get svmSets.meta.name, .update driftedSets],
         [.svmUpdated driftedSets.meta.name]⟩
    ∧ driftedSets.spec ≠ svmSets.spec := by decide

/-- C2: applying the same desired object twice against an initially empty
store issues exactly one create and zero updates: the first call creates
and reports `changed = true`, the second call only gets, reports
`changed = false` and leaves the store untouched. -/
theorem applyStorageVersionMigration_idempotent
    (render : String → RenderResult) (f : String)
    (m : StorageVersionMigration) (hrender : render f = .ok m)
    (hl : selfMergeClean m.meta.labels = true)
    (ha : selfMergeClean m.meta.annotations = true) :
    applyStorageVersionMigration render (FakeClient.ofObjects []) f
      = ⟨some m, true, none, FakeClient.ofObjects [m],
         [.get m.meta.name, .create m], [.svmCreated m.meta.name]⟩
    ∧ applyStorageVersionMigration render (FakeClient.ofObjects [m]) f
      = ⟨some m, false, none, FakeClient.ofObjects [m],
         [.get m.meta.name], []⟩ := by
  constructor
  · simp [applyStorageVersionMigration, hrender, FakeClient.getObj,
      FakeClient.createObj, FakeClient.ofObjects]
  · simp [applyStorageVersionMigration, hrender, FakeClient.getObj,
      FakeClient.ofObjects, ensureObjectMeta_self m.meta hl ha]

/-- Witness for C2 at the first migration request file and its rendered
object. -/
theorem applyStorageVersionMigration_idempotent_witness :
    applyStorageVersionMigration defaultRender (FakeClient.ofObjects [])
        "cluster-manager/cluster-manager-managedclustersets-migration.yaml"
      = ⟨some svmSets, true, none, FakeClient.ofObjects [svmSets],
         [.get svmSets.meta.name, .create svmSets],
         [.svmCreated svmSets.meta.name]⟩
    ∧ applyStorageVersionMigration defaultRender
        (FakeClient.ofObjects [svmSets])
        "cluster-manager/cluster-manager-managedclustersets-migration.yaml"
      = ⟨some svmSets, false, none, FakeClient.ofObjects [svmSets],
         [.get svmSets.meta.name], []⟩ :=
  applyStorageVersionMigration_idempotent defaultRender
    "cluster-manager/cluster-manager-managedclustersets-migration.yaml"
    svmSets (by decide) (by decide) (by decide)

end MigrationController

namespace MigrationController

/-- A client whose delete calls all fail with a non-NotFound store error. -/
def faultyDeleteClient : FakeClient :=
  ⟨[svmSets, svmSetBindings], none, none, none, some (.other "boom")⟩

/-- C3: refuted on the code for the remove direction.  With every delete
failing, `removeStorageVersionMigrations` stops after the first artifact:
the second migration request is never attempted and the returned error is
the first artifact's single error, not an aggregate of all failures. -/
theorem removeStorageVersionMigrations_fail_fast_counterexample :
    removeStorageVersionMigrations defaultRender faultyDeleteClient
      = ⟨some "boom", faultyDeleteClient, [.delete svmSets.meta.name]⟩ := by
  decide

/-- C3 amended: the multi-artifact apply attempts every migration request
file regardless of earlier failures and aggregates all collected errors
into one multi-error, while the multi-artifact remove stops at the first
failing artifact and returns that single error, skipping the remaining
artifacts. -/
theorem multiArtifact_error_policy (render : String → RenderResult)
    (c : FakeClient) :
    (applyStorageVersionMigrations render c =
      (multiLineAggregate
        ((applyStorageVersionMigration render c file0).err.toList ++
         (applyStorageVersionMigration render
           (applyStorageVersionMigration render c file0).client file1).err.toList),
       ⟨(applyStorageVersionMigration render c file0).err.toList ++
        (applyStorageVersionMigration render
          (applyStorageVersionMigration render c file0).client file1).err.toList,
        (applyStorageVersionMigration render
          (applyStorageVersionMigration render c file0).client file1).client,
        (applyStorageVersionMigration render c file0).actions ++
        (applyStorageVersionMigration render
          (applyStorageVersionMigration render c file0).client file1).actions,
        (applyStorageVersionMigration render c file0).events ++
        (applyStorageVersionMigration render
          (applyStorageVersionMigration render c file0).client file1).events⟩))
    ∧ (removeStorageVersionMigrations render c =
        if (removeStorageVersionMigration render c file0).err = none then
          ⟨(removeStorageVersionMigration render
              (removeStorageVersionMigration render c file0).client file1).err,
           (removeStorageVersionMigration render
              (removeStorageVersionMigration render c file0).client file1).client,
           (removeStorageVersionMigration render c file0).actions ++
           (removeStorageVersionMigration render
              (removeStorageVersionMigration render c file0).client file1).actions⟩
        else
          ⟨(removeStorageVersionMigration render c file0).err,
           (removeStorageVersionMigration render c file0).client,
           (removeStorageVersionMigration render c file0).actions⟩) := by
  constructor
  · rcases h1 : (applyStorageVersionMigration render c file0).err with _ | e1 <;>
    rcases h2 : (applyStorageVersionMigration render
        (applyStorageVersionMigration render c file0).client file1).err
      with _ | e2 <;>
    simp [applyStorageVersionMigrations, applyLoop, migrationRequestFiles,
      h1, h2]
  · rcases h1 : (removeStorageVersionMigration render c file0).err with _ | e1
    · rcases h2 : (removeStorageVersionMigration render
          (removeStorageVersionMigration render c file0).client file1).err
        with _ | e2 <;>
      simp [removeStorageVersionMigrations, removeLoop, migrationRequestFiles,
        h1, h2]
    · simp [removeStorageVersionMigrations, removeLoop, migrationRequestFiles,
        h1]

/-- C4: removing an already-absent subordinate succeeds: when no injected
fault and no stored object of the desired name exist, the delete reports
NotFound and `removeStorageVersionMigration` returns success with the
store untouched; any other delete error is returned to the caller. -/
theorem removeStorageVersionMigration_absent_ok
    (render : String → RenderResult) (f : String)
    (m : StorageVersionMigration) (c : FakeClient)
    (hrender : render f = .ok m) :
    (c.deleteFault = none →
      c.objects.any (fun o => o.meta.name = m.meta.name) = false →
      removeStorageVersionMigration render c f
        = ⟨none, c, [.delete m.meta.name]⟩)
    ∧ (∀ msg, c.deleteFault = some (.other msg) →
        removeStorageVersionMigration render c f
          = ⟨some msg, c, [.delete m.meta.name]⟩) := by
  constructor
  · intro h1 h2
    simp [removeStorageVersionMigration, hrender, FakeClient.deleteObj, h1, h2]
  · intro msg h1
    simp [removeStorageVersionMigration, hrender, FakeClient.deleteObj, h1,
      StoreErr.message]

/-- Witness for C4: removing against an empty store succeeds with the
store unchanged; removing against a store whose deletes fail returns the
delete error. -/
theorem removeStorageVersionMigration_absent_ok_witness :
    removeStorageVersionMigration defaultRender (FakeClient.ofObjects []) file0
      = ⟨none, FakeClient.ofObjects [], [.delete svmSets.meta.name]⟩
    ∧ removeStorageVersionMigration defaultRender
        ⟨[], none, none, none, some (.other "boom")⟩ file0
      = ⟨some "boom", ⟨[], none, none, none, some (.other "boom")⟩,
         [.delete svmSets.meta.name]⟩ :=
  ⟨(removeStorageVersionMigration_absent_ok defaultRender file0 svmSets
      (FakeClient.ofObjects []) (by decide)).1 (by decide) (by decide),
   (removeStorageVersionMigration_absent_ok defaultRender file0 svmSets
      ⟨[], none, none, none, some (.other "boom")⟩ (by decide)).2 "boom" rfl⟩

end MigrationController

namespace MigrationController

/-- C5: with the prerequisite StorageVersionMigration CRD absent, sync
returns success and issues no subordinate store call at all: the only
recorded action is the CRD probe, the migration client is untouched and
nothing is requeued. -/
theorem sync_no_crd_no_mutations (cm : ClusterManager)
    (render : String → RenderResult) (client : FakeClient) (key : String) :
    sync (.ok cm) (some .notFound) render client key
      = ⟨none, client, [.getCRD migrationRequestCRDName], [], []⟩ := rfl

/-- C6: with the CRD present, the deletion timestamp unset and the Applied
condition not true, sync returns success, issues no subordinate store
call, and requeues the same key after the fixed 5-second delay. -/
theorem sync_not_applied_requeues (cm : ClusterManager)
    (render : String → RenderResult) (client : FakeClient) (key : String)
    (hdel : cm.deletionTimestamp = none)
    (happ : isStatusConditionTrue cm.conditions clusterManagerApplied
      = false) :
    sync (.ok cm) none render client key
      = ⟨none, client, [.getCRD migrationRequestCRDName], [], [(key, 5)]⟩ := by
  simp [sync, supportStorageVersionMigration, hdel, happ]

/-- Witness for C6 at a ClusterManager with no conditions. -/
theorem sync_not_applied_requeues_witness :
    sync (.ok ⟨"cluster-manager", none, []⟩) none defaultRender
        (FakeClient.ofObjects []) "cluster-manager"
      = ⟨none, FakeClient.ofObjects [],
         [.getCRD migrationRequestCRDName], [], [("cluster-manager", 5)]⟩ :=
  sync_not_applied_requeues ⟨"cluster-manager", none, []⟩ defaultRender
    (FakeClient.ofObjects []) "cluster-manager" rfl rfl

theorem removeStorageVersionMigration_nofault
    (render : String → RenderResult) (f : String)
    (m : StorageVersionMigration) (c : FakeClient)
    (hrender : render f = .ok m) (hfault : c.deleteFault = none) :
    (removeStorageVersionMigration render c f).err = none ∧
    (removeStorageVersionMigration render c f).actions
      = [.delete m.meta.name] ∧
    (removeStorageVersionMigration render c f).client.deleteFault = none := by
  by_cases h : c.objects.any (fun o => o.meta.name = m.meta.name)
  · simp [removeStorageVersionMigration, hrender, FakeClient.deleteObj,
      hfault, h]
  · simp [removeStorageVersionMigration, hrender, FakeClient.deleteObj,
      hfault, h]

/-- C7: with the deletion timestamp set and the store's delete calls not
faulted, sync issues one delete per migration request file, in order,
returns success and never requeues, whatever the Applied condition's
status is. -/
theorem sync_deleting_removes_all (cm : ClusterManager)
    (render : String → RenderResult) (client : FakeClient) (key : String)
    (m0 m1 : StorageVersionMigration) (t : Nat)
    (hdel : cm.deletionTimestamp = some t)
    (h0 : render file0 = .ok m0) (h1 : render file1 = .ok m1)
    (hfault : client.deleteFault = none) :
    (sync (.ok cm) none render client key).err = none ∧
    (sync (.ok cm) none render client key).actions
      = [.getCRD migrationRequestCRDName, .delete m0.meta.name,
         .delete m1.meta.name] ∧
    (sync (.ok cm) none render client key).requeues = [] ∧
    (sync (.ok cm) none render client key).events = [] := by
  have s1 := removeStorageVersionMigration_nofault render file0 m0 client
    h0 hfault
  have s2 := removeStorageVersionMigration_nofault render file1 m1
    (removeStorageVersionMigration render client file0).client h1 s1.2.2
  simp [sync, supportStorageVersionMigration, hdel,
    removeStorageVersionMigrations, removeLoop, migrationRequestFiles,
    s1.1, s1.2.1, s2.1, s2.2.1]

/-- Witness for C7 at a deleting ClusterManager whose Applied condition is
true, with both subordinates present in the store. -/
theorem sync_deleting_removes_all_witness :
    (sync (.ok ⟨"cluster-manager", some 1, [⟨"Applied", "True"⟩]⟩) none
        defaultRender (FakeClient.ofObjects [svmSets, svmSetBindings])
        "cluster-manager").err = none ∧
    (sync (.ok ⟨"cluster-manager", some 1, [⟨"Applied", "True"⟩]⟩) none
        defaultRender (FakeClient.ofObjects [svmSets, svmSetBindings])
        "cluster-manager").actions
      = [.getCRD migrationRequestCRDName, .delete svmSets.meta.name,
         .delete svmSetBindings.meta.name] ∧
    (sync (.ok ⟨"cluster-manager", some 1, [⟨"Applied", "True"⟩]⟩) none
        defaultRender (FakeClient.ofObjects [svmSets, svmSetBindings])
        "cluster-manager").requeues = [] ∧
    (sync (.ok ⟨"cluster-manager", some 1, [⟨"Applied", "True"⟩]⟩) none
        defaultRender (FakeClient.ofObjects [svmSets, svmSetBindings])
        "cluster-manager").events = [] :=
  sync_deleting_removes_all ⟨"cluster-manager", some 1, [⟨"Applied", "True"⟩]⟩
    defaultRender (FakeClient.ofObjects [svmSets, svmSetBindings])
    "cluster-manager" svmSets svmSetBindings 1 rfl rfl rfl rfl

/-- C9: a queue key naming a ClusterManager the lister does not know is
success with no further store interaction; a non-NotFound lister error is
returned as the sync error, also with no further store interaction. -/
theorem sync_clustermanager_not_found (crdGet : Option StoreErr)
    (render : String → RenderResult) (client : FakeClient) (key : String) :
    sync (.error .notFound) crdGet render client key
      = ⟨none, client, [], [], []⟩
    ∧ ∀ msg, sync (.error (.other msg)) crdGet render client key
        = ⟨some msg, client, [], [], []⟩ :=
  ⟨rfl, fun _ => rfl⟩

end MigrationController

namespace MigrationController

/-- C10: the `changed` boolean is true exactly when a create or update
call was attempted against the store, including attempts that failed; on
the render-failure, decode-failure, type-mismatch, non-NotFound get-error
and no-semantic-difference paths no create or update appears in the trace
and `changed` is false. -/
theorem applyStorageVersionMigration_changed_iff_mutation_attempted
    (render : String → RenderResult) (client : FakeClient) (file : String) :
    (applyStorageVersionMigration render client file).changed
      = ((applyStorageVersionMigration render client file).actions.any
           Action.isCreate
         || (applyStorageVersionMigration render client file).actions.any
           Action.isUpdate) := by
  unfold applyStorageVersionMigration
  split
  · simp [Action.isCreate, Action.isUpdate]
  · simp [Action.isCreate, Action.isUpdate]
  · simp [Action.isCreate, Action.isUpdate]
  · split
    · split <;> simp [Action.isCreate, Action.isUpdate]
    · simp [Action.isCreate, Action.isUpdate]
    · dsimp only
      split
      · split <;> simp [Action.isCreate, Action.isUpdate]
      · simp [Action.isCreate, Action.isUpdate]

end MigrationController

namespace MigrationController

/-- C8: a Created event is emitted exactly when a create was attempted and
succeeded, a CreateFailed event exactly when a create was attempted and
failed, an Updated event exactly when an update was attempted and
succeeded, an UpdateFailed event exactly when an update was attempted and
failed; and whenever a failure event is emitted, the store error message
it carries is exactly the error returned to the caller — errors are never
swallowed. -/
theorem applyStorageVersionMigration_event_signals
    (render : String → RenderResult) (client : FakeClient) (file : String) :
    ((applyStorageVersionMigration render client file).events.any
        Event.isCreated
      = ((applyStorageVersionMigration render client file).actions.any
           Action.isCreate
         && (applyStorageVersionMigration render client file).err.isNone))
    ∧ ((applyStorageVersionMigration render client file).events.any
        Event.isCreateFailed
      = ((applyStorageVersionMigration render client file).actions.any
           Action.isCreate
         && (applyStorageVersionMigration render client file).err.isSome))
    ∧ ((applyStorageVersionMigration render client file).events.any
        Event.isUpdated
      = ((applyStorageVersionMigration render client file).actions.any
           Action.isUpdate
         && (applyStorageVersionMigration render client file).err.isNone))
    ∧ ((applyStorageVersionMigration render client file).events.any
        Event.isUpdateFailed
      = ((applyStorageVersionMigration render client file).actions.any
           Action.isUpdate
         && (applyStorageVersionMigration render client file).err.isSome))
    ∧ (eventErrMsg (applyStorageVersionMigration render client file).events
        = none
      ∨ eventErrMsg (applyStorageVersionMigration render client file).events
        = (applyStorageVersionMigration render client file).err) := by
  unfold applyStorageVersionMigration
  split
  · simp [eventErrMsg]
  · simp [eventErrMsg]
  · simp [eventErrMsg]
  · split
    · split <;>
      simp [Action.isCreate, Action.isUpdate, Event.isCreated,
        Event.isCreateFailed, Event.isUpdated, Event.isUpdateFailed,
        eventErrMsg]
    · simp [Action.isCreate, Action.isUpdate, eventErrMsg]
    · dsimp only
      split
      · split <;>
        simp [Action.isCreate, Action.isUpdate, Event.isCreated,
          Event.isCreateFailed, Event.isUpdated, Event.isUpdateFailed,
          eventErrMsg]
      · simp [Action.isCreate, Action.isUpdate, eventErrMsg]

end MigrationController
